import Mathlib

/-!
# Verification of the Content Studio workflow-state and session-memory model

A shallow embedding, in Lean 4, of the data model and operations of
`src/memory/state.py` and `src/memory/store.py` of the
`hylancer_agent_factory` repository, together with proofs about the
workflow state machine, the context objects, serialization round-trips
and the in-memory store.

Python values that flow through the dynamically-typed dict layer are
modelled by the inductive type `PyVal`; machine-level concerns
(identity of objects, in-place mutation) are modelled functionally:
every mutating Python method becomes a Lean function returning the
updated value, and `datetime.now()` becomes an explicit parameter.
-/

/-- A Python value as it appears in the dict-shaped serialization layer:
`None`, strings, integers, lists, tuples and string-keyed dicts
(a dict is an association list of key/value pairs). -/
inductive PyVal where
  | none : PyVal
  | str : String → PyVal
  | int : Int → PyVal
  | list : List PyVal → PyVal
  | tuple : List PyVal → PyVal
  | dict : List (String × PyVal) → PyVal

/-- Python `d.get(k)` on a dict modelled as an association list:
the value at the first matching key, if any. -/
def dget {κ β : Type} [DecidableEq κ] : List (κ × β) → κ → Option β
  | [], _ => Option.none
  | (k, v) :: rest, key => if k = key then some v else dget rest key

/-- Python `d[k] = v` on a dict modelled as an association list:
replace the value at an existing key in place, else append the pair. -/
def dset {κ β : Type} [DecidableEq κ] : List (κ × β) → κ → β → List (κ × β)
  | [], key, v => [(key, v)]
  | (k, w) :: rest, key, v =>
      if k = key then (key, v) :: rest else (k, w) :: dset rest key v

/-- The workflow-state enum of `src/memory/state.py` (`class WorkflowState`). -/
inductive WorkflowState where
  | START
  | BRAND_SETUP
  | BRAND_COMPLETE
  | MODE_SELECTION
  | GENERAL_IMAGE_PROMPT
  | GENERAL_IMAGE_GENERATING
  | POST_IDEA_SOURCE
  | IDEA_REQUEST
  | IDEAS_SHOWN
  | IDEA_SELECTED
  | POST_BRIEF_GENERATION
  | BRIEF_SHOWN
  | BRIEF_APPROVED
  | POST_GENERATING
  | IMAGE_GENERATED
  | POST_EDIT_REQUESTED
  | POST_EDITING
  | ANIMATION_CHOICE
  | ANIMATION_GENERATED
  | CAPTION_REQUEST
  | CAPTION_GENERATED
  | CAMPAIGN_SETUP
  | CAMPAIGN_DETAILS_SET
  | CAMPAIGN_IDEA_SOURCE
  | CAMPAIGN_IDEAS_GENERATED
  | WEEK_PLANNING
  | WEEK_PRESENTED
  | WEEK_APPROVED
  | WEEK_GENERATING
  | WEEK_COMPLETE
  | CAMPAIGN_NEXT_WEEK
  | CAMPAIGN_COMPLETE
  | CAROUSEL_SETUP
  | CAROUSEL_GENERATING
  | CAROUSEL_COMPLETE
  | COMPLETE
  | ERROR
deriving DecidableEq

/-- The `.value` string of each `WorkflowState` member. -/
def WorkflowState.value : WorkflowState → String
  | .START => "start"
  | .BRAND_SETUP => "brand_setup"
  | .BRAND_COMPLETE => "brand_complete"
  | .MODE_SELECTION => "mode_selection"
  | .GENERAL_IMAGE_PROMPT => "general_image_prompt"
  | .GENERAL_IMAGE_GENERATING => "general_image_gen"
  | .POST_IDEA_SOURCE => "post_idea_source"
  | .IDEA_REQUEST => "idea_request"
  | .IDEAS_SHOWN => "ideas_shown"
  | .IDEA_SELECTED => "idea_selected"
  | .POST_BRIEF_GENERATION => "post_brief_gen"
  | .BRIEF_SHOWN => "brief_shown"
  | .BRIEF_APPROVED => "brief_approved"
  | .POST_GENERATING => "post_generating"
  | .IMAGE_GENERATED => "image_generated"
  | .POST_EDIT_REQUESTED => "post_edit_req"
  | .POST_EDITING => "post_editing"
  | .ANIMATION_CHOICE => "animation_choice"
  | .ANIMATION_GENERATED => "animation_generated"
  | .CAPTION_REQUEST => "caption_request"
  | .CAPTION_GENERATED => "caption_generated"
  | .CAMPAIGN_SETUP => "campaign_setup"
  | .CAMPAIGN_DETAILS_SET => "campaign_details_set"
  | .CAMPAIGN_IDEA_SOURCE => "campaign_idea_src"
  | .CAMPAIGN_IDEAS_GENERATED => "campaign_ideas"
  | .WEEK_PLANNING => "week_planning"
  | .WEEK_PRESENTED => "week_presented"
  | .WEEK_APPROVED => "week_approved"
  | .WEEK_GENERATING => "week_generating"
  | .WEEK_COMPLETE => "week_complete"
  | .CAMPAIGN_NEXT_WEEK => "campaign_next_week"
  | .CAMPAIGN_COMPLETE => "campaign_complete"
  | .CAROUSEL_SETUP => "carousel_setup"
  | .CAROUSEL_GENERATING => "carousel_gen"
  | .CAROUSEL_COMPLETE => "carousel_complete"
  | .COMPLETE => "complete"
  | .ERROR => "error"

/-- The enum constructor `WorkflowState(value)`: the member whose `.value`
is the given string, or `Option.none` (Python raises `ValueError`). -/
def WorkflowState.fromValue : String → Option WorkflowState
  | "start" => some .START
  | "brand_setup" => some .BRAND_SETUP
  | "brand_complete" => some .BRAND_COMPLETE
  | "mode_selection" => some .MODE_SELECTION
  | "general_image_prompt" => some .GENERAL_IMAGE_PROMPT
  | "general_image_gen" => some .GENERAL_IMAGE_GENERATING
  | "post_idea_source" => some .POST_IDEA_SOURCE
  | "idea_request" => some .IDEA_REQUEST
  | "ideas_shown" => some .IDEAS_SHOWN
  | "idea_selected" => some .IDEA_SELECTED
  | "post_brief_gen" => some .POST_BRIEF_GENERATION
  | "brief_shown" => some .BRIEF_SHOWN
  | "brief_approved" => some .BRIEF_APPROVED
  | "post_generating" => some .POST_GENERATING
  | "image_generated" => some .IMAGE_GENERATED
  | "post_edit_req" => some .POST_EDIT_REQUESTED
  | "post_editing" => some .POST_EDITING
  | "animation_choice" => some .ANIMATION_CHOICE
  | "animation_generated" => some .ANIMATION_GENERATED
  | "caption_request" => some .CAPTION_REQUEST
  | "caption_generated" => some .CAPTION_GENERATED
  | "campaign_setup" => some .CAMPAIGN_SETUP
  | "campaign_details_set" => some .CAMPAIGN_DETAILS_SET
  | "campaign_idea_src" => some .CAMPAIGN_IDEA_SOURCE
  | "campaign_ideas" => some .CAMPAIGN_IDEAS_GENERATED
  | "week_planning" => some .WEEK_PLANNING
  | "week_presented" => some .WEEK_PRESENTED
  | "week_approved" => some .WEEK_APPROVED
  | "week_generating" => some .WEEK_GENERATING
  | "week_complete" => some .WEEK_COMPLETE
  | "campaign_next_week" => some .CAMPAIGN_NEXT_WEEK
  | "campaign_complete" => some .CAMPAIGN_COMPLETE
  | "carousel_setup" => some .CAROUSEL_SETUP
  | "carousel_gen" => some .CAROUSEL_GENERATING
  | "carousel_complete" => some .CAROUSEL_COMPLETE
  | "complete" => some .COMPLETE
  | "error" => some .ERROR
  | _ => Option.none

namespace StateTransitions

/-- The dict `StateTransitions.VALID_TRANSITIONS` of `src/memory/state.py`,
modelled as an association list in the source's entry order. -/
def VALID_TRANSITIONS : List (WorkflowState × List WorkflowState) := [
  (.START, [.BRAND_SETUP]),
  (.BRAND_SETUP, [.BRAND_COMPLETE, .MODE_SELECTION]),
  (.BRAND_COMPLETE, [.MODE_SELECTION]),
  (.MODE_SELECTION, [.POST_IDEA_SOURCE, .GENERAL_IMAGE_PROMPT, .CAMPAIGN_SETUP,
      .CAROUSEL_SETUP, .IDEA_REQUEST]),
  (.GENERAL_IMAGE_PROMPT, [.GENERAL_IMAGE_GENERATING]),
  (.GENERAL_IMAGE_GENERATING, [.IMAGE_GENERATED]),
  (.POST_IDEA_SOURCE, [.IDEA_REQUEST, .POST_BRIEF_GENERATION]),
  (.IDEA_REQUEST, [.IDEAS_SHOWN]),
  (.IDEAS_SHOWN, [.IDEA_SELECTED, .IDEA_REQUEST]),
  (.IDEA_SELECTED, [.POST_BRIEF_GENERATION, .BRIEF_SHOWN]),
  (.POST_BRIEF_GENERATION, [.BRIEF_SHOWN]),
  (.BRIEF_SHOWN, [.BRIEF_APPROVED, .IDEA_SELECTED]),
  (.BRIEF_APPROVED, [.POST_GENERATING, .IMAGE_GENERATED]),
  (.POST_GENERATING, [.IMAGE_GENERATED]),
  (.IMAGE_GENERATED, [.POST_EDIT_REQUESTED, .ANIMATION_CHOICE, .CAPTION_REQUEST,
      .COMPLETE, .MODE_SELECTION]),
  (.POST_EDIT_REQUESTED, [.POST_EDITING]),
  (.POST_EDITING, [.IMAGE_GENERATED]),
  (.ANIMATION_CHOICE, [.ANIMATION_GENERATED, .CAPTION_REQUEST]),
  (.ANIMATION_GENERATED, [.CAPTION_REQUEST]),
  (.CAPTION_REQUEST, [.CAPTION_GENERATED]),
  (.CAPTION_GENERATED, [.COMPLETE, .MODE_SELECTION]),
  (.CAMPAIGN_SETUP, [.CAMPAIGN_DETAILS_SET]),
  (.CAMPAIGN_DETAILS_SET, [.CAMPAIGN_IDEA_SOURCE, .WEEK_PLANNING]),
  (.CAMPAIGN_IDEA_SOURCE, [.CAMPAIGN_IDEAS_GENERATED, .WEEK_PLANNING]),
  (.CAMPAIGN_IDEAS_GENERATED, [.WEEK_PLANNING]),
  (.WEEK_PLANNING, [.WEEK_PRESENTED, .WEEK_APPROVED]),
  (.WEEK_PRESENTED, [.WEEK_APPROVED, .WEEK_PLANNING]),
  (.WEEK_APPROVED, [.WEEK_GENERATING, .POST_GENERATING]),
  (.WEEK_GENERATING, [.WEEK_COMPLETE]),
  (.WEEK_COMPLETE, [.CAMPAIGN_NEXT_WEEK, .CAMPAIGN_COMPLETE, .WEEK_PLANNING, .COMPLETE]),
  (.CAMPAIGN_NEXT_WEEK, [.WEEK_PLANNING]),
  (.CAMPAIGN_COMPLETE, [.COMPLETE, .MODE_SELECTION]),
  (.CAROUSEL_SETUP, [.CAROUSEL_GENERATING]),
  (.CAROUSEL_GENERATING, [.CAROUSEL_COMPLETE]),
  (.CAROUSEL_COMPLETE, [.COMPLETE, .MODE_SELECTION]),
  (.COMPLETE, [.MODE_SELECTION]),
  (.ERROR, [.MODE_SELECTION, .START])
]

/-- Python `dict.get(state, [])` on a transition table: the successor list of a
state, defaulting to the empty list when the state has no entry. -/
def getNext (table : List (WorkflowState × List WorkflowState))
    (s : WorkflowState) : List WorkflowState :=
  (dget table s).getD []

/-- The classmethod `StateTransitions.get_valid_next_states`: successor list of a state in
`VALID_TRANSITIONS`, defaulting to `[]`. -/
def get_valid_next_states (current_state : WorkflowState) : List WorkflowState :=
  getNext VALID_TRANSITIONS current_state

/-- The classmethod `StateTransitions.is_valid_transition`: `to_state in
VALID_TRANSITIONS.get(from_state, [])`. -/
def is_valid_transition (from_state to_state : WorkflowState) : Bool :=
  decide (to_state ∈ get_valid_next_states from_state)

end StateTransitions

/-- A workflow state reachable from `START` by following declared
transitions of the table. -/
inductive ReachableState : WorkflowState → Prop where
  | start : ReachableState .START
  | step {s t : WorkflowState} : ReachableState s →
      t ∈ StateTransitions.get_valid_next_states s → ReachableState t

/-- Every workflow state except `ERROR` (which has no incoming declared
edge) is reachable; this list enumerates the reachable candidates used
as the invariant of the reachability induction. -/
def reachCandidates : List WorkflowState := [
  .START, .BRAND_SETUP, .BRAND_COMPLETE, .MODE_SELECTION,
  .GENERAL_IMAGE_PROMPT, .GENERAL_IMAGE_GENERATING,
  .POST_IDEA_SOURCE, .IDEA_REQUEST, .IDEAS_SHOWN, .IDEA_SELECTED,
  .POST_BRIEF_GENERATION, .BRIEF_SHOWN, .BRIEF_APPROVED, .POST_GENERATING,
  .IMAGE_GENERATED, .POST_EDIT_REQUESTED, .POST_EDITING, .ANIMATION_CHOICE,
  .ANIMATION_GENERATED, .CAPTION_REQUEST, .CAPTION_GENERATED,
  .CAMPAIGN_SETUP, .CAMPAIGN_DETAILS_SET, .CAMPAIGN_IDEA_SOURCE,
  .CAMPAIGN_IDEAS_GENERATED, .WEEK_PLANNING, .WEEK_PRESENTED, .WEEK_APPROVED,
  .WEEK_GENERATING, .WEEK_COMPLETE, .CAMPAIGN_NEXT_WEEK, .CAMPAIGN_COMPLETE,
  .CAROUSEL_SETUP, .CAROUSEL_GENERATING, .CAROUSEL_COMPLETE, .COMPLETE
]

/-- States reachable from `START` while avoiding `BRIEF_APPROVED`,
`GENERAL_IMAGE_GENERATING` and `WEEK_APPROVED`: the closure used to show
that `IMAGE_GENERATED` cannot be entered without one of those three. -/
def avoidClosure : List WorkflowState := [
  .START, .BRAND_SETUP, .BRAND_COMPLETE, .MODE_SELECTION,
  .POST_IDEA_SOURCE, .GENERAL_IMAGE_PROMPT, .CAMPAIGN_SETUP, .CAROUSEL_SETUP,
  .IDEA_REQUEST, .IDEAS_SHOWN, .IDEA_SELECTED, .POST_BRIEF_GENERATION,
  .BRIEF_SHOWN, .CAMPAIGN_DETAILS_SET, .CAMPAIGN_IDEA_SOURCE,
  .CAMPAIGN_IDEAS_GENERATED, .WEEK_PLANNING, .WEEK_PRESENTED,
  .CAROUSEL_GENERATING, .CAROUSEL_COMPLETE, .COMPLETE
]

/-- The three declared gateways into `IMAGE_GENERATED`: brief approval,
the general-image quick path, and campaign week approval. -/
def imageGateways : List WorkflowState :=
  [.BRIEF_APPROVED, .GENERAL_IMAGE_GENERATING, .WEEK_APPROVED]

/-- A Python `datetime` value as used by the session state: naive local
time with microsecond precision (the resolution of `datetime.now()`). -/
structure DateTime where
  year : Nat
  month : Nat
  day : Nat
  hour : Nat
  minute : Nat
  second : Nat
  microsecond : Nat
deriving DecidableEq

/-- Field bounds guaranteed by Python's `datetime` constructor
(`MINYEAR = 1`, `MAXYEAR = 9999`, months 1-12, days 1-31, and so on). -/
def DateTime.Valid (d : DateTime) : Prop :=
  1 ≤ d.year ∧ d.year ≤ 9999 ∧ 1 ≤ d.month ∧ d.month ≤ 12 ∧
  1 ≤ d.day ∧ d.day ≤ 31 ∧ d.hour ≤ 23 ∧ d.minute ≤ 59 ∧
  d.second ≤ 59 ∧ d.microsecond ≤ 999999

instance (d : DateTime) : Decidable d.Valid := by
  unfold DateTime.Valid; infer_instance

/-- Decimal digit character: `chr(48 + n)` for a digit value `n < 10`. -/
def dchar (n : Nat) : Char := Char.ofNat (48 + n)

/-- Numeric value of a decimal digit character. -/
def dval (c : Char) : Nat := c.toNat - 48

/-- Zero-padded two-digit decimal rendering (`"%02d"` for values < 100). -/
def pad2 (n : Nat) : List Char := [dchar (n / 10), dchar (n % 10)]

/-- Zero-padded four-digit decimal rendering (`"%04d"` for values < 10000). -/
def pad4 (n : Nat) : List Char :=
  [dchar (n / 1000), dchar (n / 100 % 10), dchar (n / 10 % 10), dchar (n % 10)]

/-- Zero-padded six-digit decimal rendering (`"%06d"` for values < 1000000). -/
def pad6 (n : Nat) : List Char :=
  [dchar (n / 100000), dchar (n / 10000 % 10), dchar (n / 1000 % 10),
   dchar (n / 100 % 10), dchar (n / 10 % 10), dchar (n % 10)]

/-- Character list of `datetime.isoformat()`: `YYYY-MM-DDTHH:MM:SS`,
extended with `.ffffff` exactly when the microsecond field is nonzero. -/
def DateTime.isoChars (d : DateTime) : List Char :=
  pad4 d.year ++ '-' :: (pad2 d.month ++ '-' :: (pad2 d.day ++
    'T' :: (pad2 d.hour ++ ':' :: (pad2 d.minute ++ ':' :: (pad2 d.second ++
      (if d.microsecond = 0 then [] else '.' :: pad6 d.microsecond))))))

/-- Python `datetime.isoformat()`. -/
def DateTime.isoformat (d : DateTime) : String := String.mk d.isoChars

/-- Two-character decimal parse. -/
def parse2 (a b : Char) : Nat := 10 * dval a + dval b

/-- Four-character decimal parse. -/
def parse4 (a b c d : Char) : Nat :=
  1000 * dval a + 100 * dval b + 10 * dval c + dval d

/-- Six-character decimal parse. -/
def parse6 (a b c d e f : Char) : Nat :=
  100000 * dval a + 10000 * dval b + 1000 * dval c +
    100 * dval d + 10 * dval e + dval f

/-- Parse of `datetime.fromisoformat` on the character list of an
ISO-8601 timestamp in one of the two shapes `datetime.isoformat()`
emits (with or without the fractional-second part); `Option.none`
models the `ValueError` Python raises on any other input. -/
def DateTime.fromisoChars : List Char → Option DateTime
  | [y1, y2, y3, y4, '-', m1, m2, '-', d1, d2, 'T',
     h1, h2, ':', n1, n2, ':', s1, s2] =>
      if (y1.isDigit && y2.isDigit && y3.isDigit && y4.isDigit &&
          m1.isDigit && m2.isDigit && d1.isDigit && d2.isDigit &&
          h1.isDigit && h2.isDigit && n1.isDigit && n2.isDigit &&
          s1.isDigit && s2.isDigit) then
        some ⟨parse4 y1 y2 y3 y4, parse2 m1 m2, parse2 d1 d2,
              parse2 h1 h2, parse2 n1 n2, parse2 s1 s2, 0⟩
      else Option.none
  | [y1, y2, y3, y4, '-', m1, m2, '-', d1, d2, 'T',
     h1, h2, ':', n1, n2, ':', s1, s2, '.', u1, u2, u3, u4, u5, u6] =>
      if (y1.isDigit && y2.isDigit && y3.isDigit && y4.isDigit &&
          m1.isDigit && m2.isDigit && d1.isDigit && d2.isDigit &&
          h1.isDigit && h2.isDigit && n1.isDigit && n2.isDigit &&
          s1.isDigit && s2.isDigit && u1.isDigit && u2.isDigit &&
          u3.isDigit && u4.isDigit && u5.isDigit && u6.isDigit) then
        some ⟨parse4 y1 y2 y3 y4, parse2 m1 m2, parse2 d1 d2,
              parse2 h1 h2, parse2 n1 n2, parse2 s1 s2,
              parse6 u1 u2 u3 u4 u5 u6⟩
      else Option.none
  | _ => Option.none

/-- Python `datetime.fromisoformat(s)`. -/
def DateTime.fromisoformat (s : String) : Option DateTime :=
  DateTime.fromisoChars s.data

/-- The dataclass `UserUploadedImage` of `src/memory/state.py`, with the
field types its annotations declare (`str`, `list`, `tuple`). -/
structure UserUploadedImage where
  id : String := ""
  filename : String := ""
  path : String := ""
  url : String := ""
  uploaded_at : String := ""
  usage_intent : String := "auto"
  extracted_colors : List PyVal := []
  dimensions : List PyVal := []

/-- The module-level list `USER_IMAGE_INTENTS`: the closed vocabulary of
usage-intent tags. -/
def USER_IMAGE_INTENTS : List String :=
  ["background", "product_focus", "team_people", "style_reference",
   "logo_badge", "auto"]

/-- The method `UserUploadedImage.to_dict`. -/
def UserUploadedImage.to_dict (i : UserUploadedImage) : PyVal :=
  .dict [
    ("id", .str i.id),
    ("filename", .str i.filename),
    ("path", .str i.path),
    ("url", .str i.url),
    ("uploaded_at", .str i.uploaded_at),
    ("usage_intent", .str i.usage_intent),
    ("extracted_colors", .list i.extracted_colors),
    ("dimensions", .tuple i.dimensions)
  ]

/-- Decoder for a field read with `data.get(key, default)` that the
dataclass declares as `str`; `Option.none` models a stored value
outside the declared field type (unrepresentable in the typed model). -/
def decodeStr (d : List (String × PyVal)) (key : String) (dflt : String) :
    Option String :=
  match dget d key with
  | Option.none => some dflt
  | some (.str s) => some s
  | some _ => Option.none

/-- Decoder for a field read with `data.get(key, [])` declared as `list`. -/
def decodeList (d : List (String × PyVal)) (key : String) :
    Option (List PyVal) :=
  match dget d key with
  | Option.none => some []
  | some (.list l) => some l
  | some _ => Option.none

/-- Decoder for `tuple(data.get(key, ()))`: Python `tuple()` accepts a
tuple or a list and yields its elements. -/
def decodeTuple (d : List (String × PyVal)) (key : String) :
    Option (List PyVal) :=
  match dget d key with
  | Option.none => some []
  | some (.tuple l) => some l
  | some (.list l) => some l
  | some _ => Option.none

/-- The classmethod `UserUploadedImage.from_dict`: every field is read
with `data.get` and a default. -/
def UserUploadedImage.from_dict (data : List (String × PyVal)) :
    Option UserUploadedImage := do
  let id ← decodeStr data "id" ""
  let filename ← decodeStr data "filename" ""
  let path ← decodeStr data "path" ""
  let url ← decodeStr data "url" ""
  let uploaded_at ← decodeStr data "uploaded_at" ""
  let usage_intent ← decodeStr data "usage_intent" "auto"
  let extracted_colors ← decodeList data "extracted_colors"
  let dimensions ← decodeTuple data "dimensions"
  pure ⟨id, filename, path, url, uploaded_at, usage_intent,
        extracted_colors, dimensions⟩

/-- An element of `BrandContext.user_images`: either a proper
`UserUploadedImage` object or any other Python value (the source guards
every read with `isinstance(img, UserUploadedImage)`). -/
inductive UImgEntry where
  | img : UserUploadedImage → UImgEntry
  | raw : PyVal → UImgEntry

/-- Serialization of one `user_images` element as done inside
`BrandContext.to_dict`: `img.to_dict() if isinstance(img,
UserUploadedImage) else img`. -/
def UImgEntry.to_dict : UImgEntry → PyVal
  | .img i => i.to_dict
  | .raw v => v

/-- The dataclass `BrandContext` of `src/memory/state.py`. -/
structure BrandContext where
  name : String := ""
  industry : String := ""
  overview : String := ""
  tone : String := "creative"
  logo_path : Option String := Option.none
  colors : List PyVal := []
  reference_images : List PyVal := []
  user_images : List UImgEntry := []

/-- The method `BrandContext.to_dict`. -/
def BrandContext.to_dict (b : BrandContext) : PyVal :=
  .dict [
    ("name", .str b.name),
    ("industry", .str b.industry),
    ("overview", .str b.overview),
    ("tone", .str b.tone),
    ("logo_path", match b.logo_path with
      | Option.none => .none
      | some p => .str p),
    ("colors", .list b.colors),
    ("reference_images", .list b.reference_images),
    ("user_images", .list (b.user_images.map UImgEntry.to_dict))
  ]

/-- Decoder for a field read with `data.get(key)` declared `Optional[str]`. -/
def decodeOptStr (d : List (String × PyVal)) (key : String) :
    Option (Option String) :=
  match dget d key with
  | Option.none => some Option.none
  | some .none => some Option.none
  | some (.str s) => some (some s)
  | some _ => Option.none

/-- Deserialization of one `user_images` element as done inside
`BrandContext.from_dict`: `UserUploadedImage.from_dict(img) if
isinstance(img, dict) else img`. -/
def UImgEntry.from_dict (v : PyVal) : Option UImgEntry :=
  match v with
  | .dict d => (UserUploadedImage.from_dict d).map UImgEntry.img
  | v => some (.raw v)

/-- The list comprehension over `user_images_data` inside
`BrandContext.from_dict`, element-wise via `UImgEntry.from_dict`. -/
def decodeUserImages : List PyVal → Option (List UImgEntry)
  | [] => some []
  | v :: rest => do
    let e ← UImgEntry.from_dict v
    let es ← decodeUserImages rest
    pure (e :: es)

/-- The classmethod `BrandContext.from_dict`. -/
def BrandContext.from_dict (data : List (String × PyVal)) :
    Option BrandContext := do
  let user_images_data ← decodeList data "user_images"
  let user_images ← decodeUserImages user_images_data
  let name ← decodeStr data "name" ""
  let industry ← decodeStr data "industry" ""
  let overview ← decodeStr data "overview" ""
  let tone ← decodeStr data "tone" "creative"
  let logo_path ← decodeOptStr data "logo_path"
  let colors ← decodeList data "colors"
  let reference_images ← decodeList data "reference_images"
  pure ⟨name, industry, overview, tone, logo_path, colors,
        reference_images, user_images⟩

/-- The method `BrandContext.is_complete`: `bool(self.name)`. -/
def BrandContext.is_complete (b : BrandContext) : Bool :=
  b.name ≠ ""

/-- The method `BrandContext.get_images_for_generation`: user images
that are `UserUploadedImage` instances and are not tagged
`style_reference`. -/
def BrandContext.get_images_for_generation (b : BrandContext) :
    List UserUploadedImage :=
  b.user_images.filterMap fun e =>
    match e with
    | .img i => if i.usage_intent ≠ "style_reference" then some i else Option.none
    | .raw _ => Option.none

/-- The method `BrandContext.get_style_reference_images`:
`style_reference`-tagged user images followed by `{"path": p}` wrappers
of the legacy `reference_images` list. -/
def BrandContext.get_style_reference_images (b : BrandContext) :
    List UImgEntry :=
  (b.user_images.filterMap fun e =>
    match e with
    | .img i =>
        if i.usage_intent = "style_reference" then some (UImgEntry.img i)
        else Option.none
    | .raw _ => Option.none) ++
  b.reference_images.map fun p => UImgEntry.raw (.dict [("path", p)])

/-- The dataclass `PostContext` of `src/memory/state.py`; the
dict-shaped fields `selected_idea` and `visual_brief` are declared
`Optional[dict]`. -/
structure PostContext where
  theme : Option String := Option.none
  selected_idea : Option (List (String × PyVal)) := Option.none
  visual_brief : Option (List (String × PyVal)) := Option.none
  image_path : Option String := Option.none
  animation_style : Option String := Option.none
  video_path : Option String := Option.none
  caption : Option String := Option.none
  hashtags : List PyVal := []

/-- Encoding of an `Optional[str]` field in a `to_dict` result. -/
def encOptStr : Option String → PyVal
  | Option.none => .none
  | some s => .str s

/-- Encoding of an `Optional[dict]` field in a `to_dict` result. -/
def encOptDict : Option (List (String × PyVal)) → PyVal
  | Option.none => .none
  | some d => .dict d

/-- The method `PostContext.to_dict`. -/
def PostContext.to_dict (p : PostContext) : PyVal :=
  .dict [
    ("theme", encOptStr p.theme),
    ("selected_idea", encOptDict p.selected_idea),
    ("visual_brief", encOptDict p.visual_brief),
    ("image_path", encOptStr p.image_path),
    ("animation_style", encOptStr p.animation_style),
    ("video_path", encOptStr p.video_path),
    ("caption", encOptStr p.caption),
    ("hashtags", .list p.hashtags)
  ]

/-- Decoder for an `Optional[dict]` keyword of `cls(**data)`. -/
def decodeOptDict (d : List (String × PyVal)) (key : String) :
    Option (Option (List (String × PyVal))) :=
  match dget d key with
  | Option.none => some Option.none
  | some .none => some Option.none
  | some (.dict m) => some (some m)
  | some _ => Option.none

/-- The classmethod `PostContext.from_dict`: `cls(**data)` — each field
present in `data` is passed as a keyword, absent fields keep the
dataclass default. -/
def PostContext.from_dict (data : List (String × PyVal)) :
    Option PostContext := do
  let theme ← decodeOptStr data "theme"
  let selected_idea ← decodeOptDict data "selected_idea"
  let visual_brief ← decodeOptDict data "visual_brief"
  let image_path ← decodeOptStr data "image_path"
  let animation_style ← decodeOptStr data "animation_style"
  let video_path ← decodeOptStr data "video_path"
  let caption ← decodeOptStr data "caption"
  let hashtags ← decodeList data "hashtags"
  pure ⟨theme, selected_idea, visual_brief, image_path, animation_style,
        video_path, caption, hashtags⟩

/-- The method `PostContext.reset`: every field is reassigned its
documented default. -/
def PostContext.reset (_p : PostContext) : PostContext :=
  { theme := Option.none
    selected_idea := Option.none
    visual_brief := Option.none
    image_path := Option.none
    animation_style := Option.none
    video_path := Option.none
    caption := Option.none
    hashtags := [] }

/-- The dataclass `CampaignContext` of `src/memory/state.py`; the
numeric fields are declared plain `int` with defaults 2, 4 and 1. -/
structure CampaignContext where
  month : Option String := Option.none
  posts_per_week : Int := 2
  total_weeks : Int := 4
  current_week : Int := 1
  completed_weeks : List PyVal := []
  posts_generated : List PyVal := []

/-- The method `CampaignContext.to_dict`. -/
def CampaignContext.to_dict (c : CampaignContext) : PyVal :=
  .dict [
    ("month", encOptStr c.month),
    ("posts_per_week", .int c.posts_per_week),
    ("total_weeks", .int c.total_weeks),
    ("current_week", .int c.current_week),
    ("completed_weeks", .list c.completed_weeks),
    ("posts_generated", .list c.posts_generated)
  ]

/-- Decoder for an `int` keyword of `cls(**data)` with a default. -/
def decodeInt (d : List (String × PyVal)) (key : String) (dflt : Int) :
    Option Int :=
  match dget d key with
  | Option.none => some dflt
  | some (.int n) => some n
  | some _ => Option.none

/-- The classmethod `CampaignContext.from_dict`: `cls(**data)`. -/
def CampaignContext.from_dict (data : List (String × PyVal)) :
    Option CampaignContext := do
  let month ← decodeOptStr data "month"
  let posts_per_week ← decodeInt data "posts_per_week" 2
  let total_weeks ← decodeInt data "total_weeks" 4
  let current_week ← decodeInt data "current_week" 1
  let completed_weeks ← decodeList data "completed_weeks"
  let posts_generated ← decodeList data "posts_generated"
  pure ⟨month, posts_per_week, total_weeks, current_week,
        completed_weeks, posts_generated⟩

/-- The method `CampaignContext.reset`. -/
def CampaignContext.reset (_c : CampaignContext) : CampaignContext :=
  { month := Option.none
    posts_per_week := 2
    total_weeks := 4
    current_week := 1
    completed_weeks := []
    posts_generated := [] }

/-- Python attribute assignment `campaign.total_weeks = v` on the plain
dataclass field: the value is stored unchanged (no setter, no
validation anywhere in the source). -/
def CampaignContext.set_total_weeks (c : CampaignContext) (v : Int) :
    CampaignContext :=
  { c with total_weeks := v }

/-- Python attribute assignment `campaign.posts_per_week = v` on the
plain dataclass field: the value is stored unchanged. -/
def CampaignContext.set_posts_per_week (c : CampaignContext) (v : Int) :
    CampaignContext :=
  { c with posts_per_week := v }

/-- The dataclass `SessionState` of `src/memory/state.py`. The
`datetime.now()` default factories are call-time effects, so the two
timestamps are explicit fields here. -/
structure SessionState where
  session_id : String
  user_id : String
  workflow_state : WorkflowState := .START
  mode : Option String := Option.none
  brand : BrandContext := {}
  post : PostContext := {}
  campaign : CampaignContext := {}
  created_at : DateTime
  updated_at : DateTime

/-- The method `SessionState.to_dict`. -/
def SessionState.to_dict (s : SessionState) : PyVal :=
  .dict [
    ("session_id", .str s.session_id),
    ("user_id", .str s.user_id),
    ("workflow_state", .str s.workflow_state.value),
    ("mode", encOptStr s.mode),
    ("brand", s.brand.to_dict),
    ("post", s.post.to_dict),
    ("campaign", s.campaign.to_dict),
    ("created_at", .str s.created_at.isoformat),
    ("updated_at", .str s.updated_at.isoformat)
  ]

/-- Decoder for a required `str` entry read with `data[key]`
(`Option.none` models the `KeyError`/type failure). -/
def decodeReqStr (d : List (String × PyVal)) (key : String) :
    Option String :=
  match dget d key with
  | some (.str s) => some s
  | _ => Option.none

/-- Decoder for a sub-dict read with `data.get(key, {})`. -/
def decodeSubDict (d : List (String × PyVal)) (key : String) :
    Option (List (String × PyVal)) :=
  match dget d key with
  | Option.none => some []
  | some (.dict m) => some m
  | some _ => Option.none

/-- The classmethod `SessionState.from_dict`: `session_id`, `user_id`,
`workflow_state`, `created_at` and `updated_at` are required
(`data[...]`), the contexts default to `{}`, and `mode` to `None`. -/
def SessionState.from_dict (data : List (String × PyVal)) :
    Option SessionState := do
  let session_id ← decodeReqStr data "session_id"
  let user_id ← decodeReqStr data "user_id"
  let wsValue ← decodeReqStr data "workflow_state"
  let workflow_state ← WorkflowState.fromValue wsValue
  let mode ← decodeOptStr data "mode"
  let brand ← BrandContext.from_dict (← decodeSubDict data "brand")
  let post ← PostContext.from_dict (← decodeSubDict data "post")
  let campaign ← CampaignContext.from_dict (← decodeSubDict data "campaign")
  let createdStr ← decodeReqStr data "created_at"
  let created_at ← DateTime.fromisoformat createdStr
  let updatedStr ← decodeReqStr data "updated_at"
  let updated_at ← DateTime.fromisoformat updatedStr
  pure ⟨session_id, user_id, workflow_state, mode, brand, post,
        campaign, created_at, updated_at⟩

/-- The method `SessionState.transition`: unconditionally assigns
`workflow_state` and stamps `updated_at` with `datetime.now()`
(modelled as the explicit `now` argument). -/
def SessionState.transition (s : SessionState) (new_state : WorkflowState)
    (now : DateTime) : SessionState :=
  { s with workflow_state := new_state, updated_at := now }

/-- One entry of the `generated_content` log of
`MemoryStore.save_generated_content`: the dict literal `{"type": ...,
"content": ..., "project_id": ..., "created_at": ...}`. -/
structure ContentEntry where
  content_type : String
  content : List (String × PyVal)
  project_id : Option String
  created_at : String

/-- One record of the `projects` dict of `MemoryStore.save_project`:
the dict literal `{"id": ..., "name": ..., "brand_info": ...,
"created_at": ..., "updated_at": ..., "content_history": []}`. -/
structure Project where
  id : String
  name : String
  brand_info : List (String × PyVal)
  created_at : String
  updated_at : String
  content_history : List ContentEntry

/-- The class `MemoryStore` of `src/memory/store.py`: projects,
analyzed profiles, the generated-content log and free-form session
context. -/
structure MemoryStore where
  projects : List (String × Project) := []
  profiles : List (String × PyVal) := []
  generated_content : List ContentEntry := []
  session_context : List (String × PyVal) := []

/-- The method `MemoryStore.save_project`: builds a fresh record (empty
`content_history`, both timestamps stamped `datetime.now().isoformat()`)
and assigns it at `project_id`, replacing any existing record; returns
the new store and the `{"status": "success", ...}` result dict. -/
def MemoryStore.save_project (m : MemoryStore) (project_id name : String)
    (brand_info : List (String × PyVal)) (now : DateTime) :
    MemoryStore × PyVal :=
  let record : Project :=
    { id := project_id
      name := name
      brand_info := brand_info
      created_at := now.isoformat
      updated_at := now.isoformat
      content_history := [] }
  ({ m with projects := dset m.projects project_id record },
   .dict [("status", .str "success"), ("project_id", .str project_id)])

/-- The method `MemoryStore.get_project`: `self.projects.get(project_id)`. -/
def MemoryStore.get_project (m : MemoryStore) (project_id : String) :
    Option Project :=
  dget m.projects project_id

/-- The method `MemoryStore.save_generated_content`: appends an entry to
the global log and, when `project_id` is truthy and present in
`projects`, also appends it to that project's `content_history` and
stamps the project's `updated_at`. -/
def MemoryStore.save_generated_content (m : MemoryStore)
    (content_type : String) (content : List (String × PyVal))
    (project_id : Option String) (now : DateTime) : MemoryStore × PyVal :=
  let entry : ContentEntry :=
    { content_type := content_type
      content := content
      project_id := project_id
      created_at := now.isoformat }
  let store :=
    { m with generated_content := m.generated_content ++ [entry] }
  let store :=
    match project_id with
    | some pid =>
        if pid ≠ "" then
          match dget store.projects pid with
          | some proj =>
              let proj' :=
                { proj with
                  content_history := proj.content_history ++ [entry]
                  updated_at := now.isoformat }
              { store with projects := dset store.projects pid proj' }
          | Option.none => store
        else store
    | Option.none => store
  (store,
   .dict [("status", .str "success"),
          ("content_id", .int (store.generated_content.length - 1))])

/-- Python slice `xs[-limit:]` for a non-negative `limit`: the last
`limit` elements when `limit ≥ 1`, but the whole list when `limit = 0`,
because `-0 == 0` makes the slice start at the beginning. -/
def pySliceLast {α : Type} (l : List α) (limit : Nat) : List α :=
  if limit = 0 then l else l.drop (l.length - limit)

/-- The method `MemoryStore.get_recent_content`:
`self.generated_content[-limit:][::-1]`. -/
def MemoryStore.get_recent_content (m : MemoryStore) (limit : Nat) :
    List ContentEntry :=
  (pySliceLast m.generated_content limit).reverse

/-- Test used by the source's `isinstance(img, UserUploadedImage)` guards. -/
def UImgEntry.isImg : UImgEntry → Bool
  | .img _ => true
  | .raw _ => false

/-- Key/value pairs of a dict `PyVal` (empty for any other value); used
to feed a `to_dict` result back into a `from_dict`. -/
def PyVal.fields : PyVal → List (String × PyVal)
  | .dict d => d
  | _ => []

/-- A concrete timestamp with microseconds, for concrete instances. -/
def dtSample : DateTime := ⟨2025, 10, 12, 9, 30, 0, 123456⟩

/-- A concrete timestamp without microseconds, for concrete instances. -/
def dtSample2 : DateTime := ⟨2025, 10, 12, 9, 31, 5, 0⟩

/-- Concrete user image carrying a given usage intent. -/
def imgWith (n : String) (intent : String) : UserUploadedImage :=
  { id := n
    filename := n ++ ".png"
    path := "/up/" ++ n ++ ".png"
    url := "http://cdn/" ++ n ++ ".png"
    uploaded_at := "2025-10-12"
    usage_intent := intent
    extracted_colors := [.str "#112233"]
    dimensions := [.int 800, .int 600] }

/-- Six concrete user images, one per usage intent. -/
def sixImages : List UserUploadedImage :=
  [imgWith "a" "background", imgWith "b" "product_focus",
   imgWith "c" "team_people", imgWith "d" "style_reference",
   imgWith "e" "logo_badge", imgWith "f" "auto"]

/-- Concrete brand with one user image per usage intent and one legacy
reference image. -/
def brandSample : BrandContext :=
  { name := "Acme Coffee"
    industry := "coffee"
    overview := "specialty roasters"
    tone := "creative"
    logo_path := some "/up/logo.png"
    colors := [.str "#112233", .str "#445566"]
    reference_images := [.str "/up/ref1.png"]
    user_images := sixImages.map UImgEntry.img }

/-- Concrete fully-populated post context. -/
def postSample : PostContext :=
  { theme := some "autumn drinks"
    selected_idea := some [("title", .str "Pumpkin latte")]
    visual_brief := some [("headline", .str "Cozy up")]
    image_path := some "/gen/post1.png"
    animation_style := some "zoom"
    video_path := some "/gen/post1.mp4"
    caption := some "Sweater weather."
    hashtags := [.str "#coffee", .str "#fall"] }

/-- Concrete in-progress campaign context. -/
def campaignSample : CampaignContext :=
  { month := some "October"
    posts_per_week := 3
    total_weeks := 4
    current_week := 2
    completed_weeks := [.int 1]
    posts_generated := [.str "p1"] }

/-- Concrete fully-populated session state. -/
def sessionSample : SessionState :=
  { session_id := "s1"
    user_id := "u1"
    workflow_state := .IMAGE_GENERATED
    mode := some "single"
    brand := brandSample
    post := postSample
    campaign := campaignSample
    created_at := dtSample
    updated_at := dtSample2 }

/-- Concrete fresh session still in `START`. -/
def sessionStart : SessionState :=
  { session_id := "s0"
    user_id := "u0"
    created_at := dtSample
    updated_at := dtSample }

/-- Concrete generated-content entry, distinguished by an index. -/
def entrySample (n : Int) : ContentEntry :=
  { content_type := "image"
    content := [("i", .int n)]
    project_id := Option.none
    created_at := "2025-10-12T09:30:00" }

/-- Store whose log holds exactly one entry. -/
def storeOne : MemoryStore := { generated_content := [entrySample 0] }

/-- Store whose log holds three entries in chronological order. -/
def storeThree : MemoryStore :=
  { generated_content := [entrySample 0, entrySample 1, entrySample 2] }

/-- Concrete project record with a non-empty content history. -/
def projSample : Project :=
  { id := "p1"
    name := "Proj"
    brand_info := [("name", .str "Acme Coffee")]
    created_at := "2025-01-01T00:00:00"
    updated_at := "2025-01-02T00:00:00"
    content_history := [entrySample 0] }

/-- Store holding `projSample` under its id. -/
def storeProj : MemoryStore := { projects := [("p1", projSample)] }

theorem dchar_isDigit {n : Nat} (h : n < 10) : (dchar n).isDigit = true := by
  interval_cases n <;> decide

theorem dval_dchar {n : Nat} (h : n < 10) : dval (dchar n) = n := by
  interval_cases n <;> decide

theorem dchar_mod_isDigit (x : Nat) : (dchar (x % 10)).isDigit = true :=
  dchar_isDigit (Nat.mod_lt _ (by omega))

theorem dval_dchar_mod (x : Nat) : dval (dchar (x % 10)) = x % 10 :=
  dval_dchar (Nat.mod_lt _ (by omega))

/-- Splitting the next decimal digit off a quotient, in a shape the
linear-arithmetic solver can consume directly. -/
theorem digit_split (x a b : Nat) (h : a * 10 = b) :
    10 * (x / b) + x / a % 10 = x / a := by
  subst h
  rw [← Nat.div_div_eq_div_mul]
  exact Nat.div_add_mod (x / a) 10

/-- Parsing inverts printing for any `datetime` value within the bounds
Python's `datetime` constructor enforces. -/
theorem DateTime.fromisoformat_isoformat (d : DateTime) (h : d.Valid) :
    DateTime.fromisoformat d.isoformat = some d := by
  obtain ⟨y, mo, da, ho, mi, se, us⟩ := d
  obtain ⟨h1, h2, h3, h4, h5, h6, h7, h8, h9, h10⟩ := h
  simp only at h1 h2 h3 h4 h5 h6 h7 h8 h9 h10
  have hy : y / 1000 < 10 := by omega
  have hmo : mo / 10 < 10 := by omega
  have hda : da / 10 < 10 := by omega
  have hho : ho / 10 < 10 := by omega
  have hmi : mi / 10 < 10 := by omega
  have hse : se / 10 < 10 := by omega
  have hus : us / 100000 < 10 := by omega
  by_cases h0 : us = 0
  · subst h0
    simp only [DateTime.fromisoformat, DateTime.isoformat, DateTime.isoChars,
      pad4, pad2, pad6, if_pos rfl, List.cons_append, List.nil_append,
      List.append_nil]
    simp only [DateTime.fromisoChars, dchar_mod_isDigit,
      dchar_isDigit hy, dchar_isDigit hmo, dchar_isDigit hda,
      dchar_isDigit hho, dchar_isDigit hmi, dchar_isDigit hse,
      Bool.and_self, Bool.true_and, if_true, parse4, parse2,
      dval_dchar_mod, dval_dchar hy, dval_dchar hmo, dval_dchar hda,
      dval_dchar hho, dval_dchar hmi, dval_dchar hse,
      Option.some.injEq, DateTime.mk.injEq]
    have e1 := digit_split y 100 1000 (by norm_num)
    have e2 := digit_split y 10 100 (by norm_num)
    refine ⟨by omega, by omega, by omega, by omega, by omega, by omega, trivial⟩
  · simp only [DateTime.fromisoformat, DateTime.isoformat, DateTime.isoChars,
      pad4, pad2, pad6, if_neg h0, List.cons_append, List.nil_append,
      List.append_nil]
    simp only [DateTime.fromisoChars, dchar_mod_isDigit,
      dchar_isDigit hy, dchar_isDigit hmo, dchar_isDigit hda,
      dchar_isDigit hho, dchar_isDigit hmi, dchar_isDigit hse,
      dchar_isDigit hus, Bool.and_self, Bool.true_and, if_true,
      parse4, parse2, parse6,
      dval_dchar_mod, dval_dchar hy, dval_dchar hmo, dval_dchar hda,
      dval_dchar hho, dval_dchar hmi, dval_dchar hse, dval_dchar hus,
      Option.some.injEq, DateTime.mk.injEq]
    have e1 := digit_split y 100 1000 (by norm_num)
    have e2 := digit_split y 10 100 (by norm_num)
    have f1 := digit_split us 10000 100000 (by norm_num)
    have f2 := digit_split us 1000 10000 (by norm_num)
    have f3 := digit_split us 100 1000 (by norm_num)
    have f4 := digit_split us 10 100 (by norm_num)
    refine ⟨by omega, by omega, by omega, by omega, by omega, by omega, by omega⟩

/-- Parsing a member's `.value` string recovers the member. -/
theorem WorkflowState.fromValue_value (s : WorkflowState) :
    WorkflowState.fromValue s.value = some s := by
  cases s <;> rfl

/-- Image-entry serialization round-trip on proper image objects. -/
theorem uimg_roundtrip (i : UserUploadedImage) :
    UImgEntry.from_dict (UImgEntry.to_dict (.img i)) = some (.img i) := rfl

/-- Element-wise round-trip of a `user_images` list of proper image
objects. -/
theorem decodeUserImages_map (l : List UImgEntry)
    (h : l.all UImgEntry.isImg = true) :
    decodeUserImages (l.map UImgEntry.to_dict) = some l := by
  induction l with
  | nil => rfl
  | cons e rest ih =>
      simp only [List.all_cons, Bool.and_eq_true] at h
      obtain ⟨he, hrest⟩ := h
      match e, he with
      | .img i, _ =>
          simp only [List.map_cons, decodeUserImages,
            uimg_roundtrip, ih hrest]
          rfl

/-- Post-context serialization round-trip, stated on the field list
produced by `PostContext.to_dict`. -/
theorem post_roundtrip (p : PostContext) :
    PostContext.from_dict [
      ("theme", encOptStr p.theme),
      ("selected_idea", encOptDict p.selected_idea),
      ("visual_brief", encOptDict p.visual_brief),
      ("image_path", encOptStr p.image_path),
      ("animation_style", encOptStr p.animation_style),
      ("video_path", encOptStr p.video_path),
      ("caption", encOptStr p.caption),
      ("hashtags", .list p.hashtags)] = some p := by
  obtain ⟨t, si, vb, ip, an, vp, c, hs⟩ := p
  cases t <;> cases si <;> cases vb <;> cases ip <;> cases an <;>
    cases vp <;> cases c <;> rfl

/-- Campaign-context serialization round-trip. -/
theorem campaign_roundtrip (c : CampaignContext) :
    CampaignContext.from_dict [
      ("month", encOptStr c.month),
      ("posts_per_week", .int c.posts_per_week),
      ("total_weeks", .int c.total_weeks),
      ("current_week", .int c.current_week),
      ("completed_weeks", .list c.completed_weeks),
      ("posts_generated", .list c.posts_generated)] = some c := by
  obtain ⟨mo, ppw, tw, cw, cwks, pg⟩ := c
  cases mo <;> rfl

/-- Brand-context serialization round-trip when every `user_images`
element is a proper `UserUploadedImage`. -/
theorem brand_roundtrip (b : BrandContext)
    (h : b.user_images.all UImgEntry.isImg = true) :
    BrandContext.from_dict [
      ("name", .str b.name),
      ("industry", .str b.industry),
      ("overview", .str b.overview),
      ("tone", .str b.tone),
      ("logo_path", match b.logo_path with
        | Option.none => .none
        | some p => .str p),
      ("colors", .list b.colors),
      ("reference_images", .list b.reference_images),
      ("user_images", .list (b.user_images.map UImgEntry.to_dict))] =
      some b := by
  obtain ⟨n, ind, ov, tn, lp, cs, ri, ui⟩ := b
  simp only at h
  cases lp <;>
    simp [BrandContext.from_dict,
      decodeList, decodeStr, decodeOptStr, dget, decodeUserImages_map ui h]

theorem encOptStr_none : encOptStr Option.none = PyVal.none := rfl

theorem encOptStr_some (v : String) : encOptStr (some v) = PyVal.str v := rfl

/-- Session-state serialization round-trip (helper for the claim
theorem): parsing `to_dict` output restores every field. -/
theorem session_roundtrip (s : SessionState)
    (h1 : s.created_at.Valid) (h2 : s.updated_at.Valid)
    (h3 : s.brand.user_images.all UImgEntry.isImg = true) :
    SessionState.from_dict (PyVal.fields s.to_dict) = some s := by
  obtain ⟨sid, uid, ws, mode, brand, post, campaign, ca, ua⟩ := s
  simp only at h1 h2 h3
  cases mode <;>
    simp [SessionState.to_dict, PyVal.fields, SessionState.from_dict,
      BrandContext.to_dict, PostContext.to_dict, CampaignContext.to_dict,
      decodeReqStr, decodeOptStr, decodeSubDict, dget,
      encOptStr_none, encOptStr_some,
      WorkflowState.fromValue_value,
      DateTime.fromisoformat_isoformat ca h1,
      DateTime.fromisoformat_isoformat ua h2,
      brand_roundtrip brand h3,
      post_roundtrip post,
      campaign_roundtrip campaign]

/-- Assigning a key in a dict makes the lookup of that key return the
assigned value. -/
theorem dget_dset_self {β : Type} (l : List (String × β)) (k : String)
    (v : β) : dget (dset l k v) k = some v := by
  induction l with
  | nil => simp [dset, dget]
  | cons p rest ih =>
      obtain ⟨k', w⟩ := p
      by_cases h : k' = k
      · simp [dset, dget, h]
      · simp [dset, dget, h, ih]

/-- Every state reachable from `START` lies in the candidate list. -/
theorem reachable_mem (s : WorkflowState) (h : ReachableState s) :
    s ∈ reachCandidates := by
  induction h with
  | start => decide
  | step _ hmem ih =>
      have key : ∀ x ∈ reachCandidates,
          ∀ t ∈ StateTransitions.get_valid_next_states x,
          t ∈ reachCandidates := by decide
      exact key _ ih _ hmem

/-- Every candidate state has a non-empty successor list. -/
theorem reach_candidates_nonempty :
    ∀ x ∈ reachCandidates, StateTransitions.get_valid_next_states x ≠ [] := by
  decide

/-- Stepping from the avoid-closure without entering a gateway stays in
the avoid-closure. -/
theorem avoid_closed :
    ∀ x ∈ avoidClosure, ∀ t ∈ StateTransitions.get_valid_next_states x,
      t ∈ imageGateways ∨ t ∈ avoidClosure := by
  decide

/-- A declared-transition chain from a state of the avoid-closure that
never enters a gateway stays inside the avoid-closure throughout. -/
theorem chain_avoid (l : List WorkflowState) (s : WorkflowState)
    (hs : s ∈ avoidClosure)
    (hchain : List.Chain
      (fun a b => b ∈ StateTransitions.get_valid_next_states a) s l)
    (hav : ∀ x ∈ l, x ∉ imageGateways) :
    ∀ y ∈ l, y ∈ avoidClosure := by
  induction l generalizing s with
  | nil => intro y hy; cases hy
  | cons b m ih =>
      rw [List.chain_cons] at hchain
      obtain ⟨hstep, hchain'⟩ := hchain
      have hb : b ∈ avoidClosure := by
        rcases avoid_closed s hs b hstep with hg | hok
        · exact absurd hg (hav b (List.mem_cons_self b m))
        · exact hok
      intro y hy
      rcases List.mem_cons.mp hy with rfl | hy'
      · exact hb
      · exact ih b hb hchain'
          (fun x hx => hav x (List.mem_cons_of_mem _ hx)) y hy'

/-- C1 (counterexample): `IMAGE_GENERATED` is not a declared successor
of `START` (`is_valid_transition` is false), yet `SessionState.transition`
applies the jump anyway, changing `workflow_state` — the request is not
rejected and the state does not remain unchanged. -/
theorem claim_C1_counterexample :
    StateTransitions.is_valid_transition .START .IMAGE_GENERATED = false ∧
    (sessionStart.transition .IMAGE_GENERATED dtSample2).workflow_state =
      .IMAGE_GENERATED ∧
    sessionStart.workflow_state = .START := by
  refine ⟨by decide, rfl, rfl⟩

/-- C1 (amended): `SessionState.transition` applies any requested state
unconditionally and stamps `updated_at`; rejection is left to callers,
for whom `StateTransitions.is_valid_transition` returns `false` exactly
when the target is not a declared successor of the current state. -/
theorem claim_C1 (s : SessionState) (t : WorkflowState) (now : DateTime) :
    (s.transition t now).workflow_state = t ∧
    (s.transition t now).updated_at = now ∧
    (StateTransitions.is_valid_transition s.workflow_state t = false ↔
      t ∉ StateTransitions.get_valid_next_states s.workflow_state) := by
  refine ⟨rfl, rfl, ?_⟩
  simp [StateTransitions.is_valid_transition]

/-- C2: every workflow state reachable from `START` along declared
transitions has a non-empty successor list — including the terminal
sinks `COMPLETE` and `ERROR`, which both loop back to `MODE_SELECTION`
as the spec notes. -/
theorem claim_C2 (s : WorkflowState) (h : ReachableState s) :
    StateTransitions.get_valid_next_states s ≠ [] ∧
    WorkflowState.MODE_SELECTION ∈
      StateTransitions.get_valid_next_states .COMPLETE ∧
    WorkflowState.MODE_SELECTION ∈
      StateTransitions.get_valid_next_states .ERROR := by
  exact ⟨reach_candidates_nonempty s (reachable_mem s h), by decide, by decide⟩

theorem claim_C2_witness :
    StateTransitions.get_valid_next_states .BRAND_SETUP ≠ [] :=
  (claim_C2 .BRAND_SETUP
    (ReachableState.step ReachableState.start (by decide))).1

/-- C3: every declared-transition path from `START` that reaches
`IMAGE_GENERATED` first passes through `BRIEF_APPROVED` or one of the
explicitly declared shortcuts — the general-image quick path
(`GENERAL_IMAGE_GENERATING`) or the campaign flow (`WEEK_APPROVED`);
there is no other way into the post-generation states. -/
theorem claim_C3 (l₁ l₂ : List WorkflowState)
    (h : List.Chain
      (fun a b => b ∈ StateTransitions.get_valid_next_states a)
      .START (l₁ ++ .IMAGE_GENERATED :: l₂)) :
    WorkflowState.BRIEF_APPROVED ∈ l₁ ∨
    WorkflowState.GENERAL_IMAGE_GENERATING ∈ l₁ ∨
    WorkflowState.WEEK_APPROVED ∈ l₁ := by
  by_contra hc
  push_neg at hc
  obtain ⟨nba, ngig, nwa⟩ := hc
  have h1 := (List.chain_split.mp h).1
  have hav : ∀ x ∈ l₁ ++ [WorkflowState.IMAGE_GENERATED],
      x ∉ imageGateways := by
    intro x hx hg
    rcases List.mem_append.mp hx with hx1 | hx2
    · simp only [imageGateways, List.mem_cons, List.not_mem_nil,
        or_false] at hg
      rcases hg with rfl | rfl | rfl
      · exact nba hx1
      · exact ngig hx1
      · exact nwa hx1
    · rw [List.mem_singleton] at hx2
      subst hx2
      revert hg
      decide
  have hall := chain_avoid _ _ (by decide) h1 hav
  have : WorkflowState.IMAGE_GENERATED ∈ avoidClosure :=
    hall _ (List.mem_append_right _ (List.mem_singleton.mpr rfl))
  revert this
  decide

theorem claim_C3_witness :
    List.Chain
      (fun a b => b ∈ StateTransitions.get_valid_next_states a)
      .START ([.BRAND_SETUP, .MODE_SELECTION, .GENERAL_IMAGE_PROMPT,
        .GENERAL_IMAGE_GENERATING] ++ [WorkflowState.IMAGE_GENERATED]) ∧
    (WorkflowState.BRIEF_APPROVED ∈ ([.BRAND_SETUP, .MODE_SELECTION,
        .GENERAL_IMAGE_PROMPT, .GENERAL_IMAGE_GENERATING] :
        List WorkflowState) ∨
     WorkflowState.GENERAL_IMAGE_GENERATING ∈ ([.BRAND_SETUP,
        .MODE_SELECTION, .GENERAL_IMAGE_PROMPT,
        .GENERAL_IMAGE_GENERATING] : List WorkflowState) ∨
     WorkflowState.WEEK_APPROVED ∈ ([.BRAND_SETUP, .MODE_SELECTION,
        .GENERAL_IMAGE_PROMPT, .GENERAL_IMAGE_GENERATING] :
        List WorkflowState)) :=
  ⟨List.Chain.cons (by decide) (List.Chain.cons (by decide)
      (List.Chain.cons (by decide) (List.Chain.cons (by decide)
        (List.Chain.cons (by decide) List.Chain.nil)))),
   claim_C3 [.BRAND_SETUP, .MODE_SELECTION,
    .GENERAL_IMAGE_PROMPT, .GENERAL_IMAGE_GENERATING] []
    (List.Chain.cons (by decide) (List.Chain.cons (by decide)
      (List.Chain.cons (by decide) (List.Chain.cons (by decide)
        (List.Chain.cons (by decide) List.Chain.nil)))))⟩

/-- C4: for every populated session state (valid timestamps, user
images stored as proper `UserUploadedImage` objects), `from_dict` of
`to_dict` restores every field, the nested contexts, the enum-as-string
workflow state and the ISO-8601 timestamps included. -/
theorem claim_C4 (s : SessionState)
    (h1 : s.created_at.Valid) (h2 : s.updated_at.Valid)
    (h3 : s.brand.user_images.all UImgEntry.isImg = true) :
    SessionState.from_dict (PyVal.fields s.to_dict) = some s :=
  session_roundtrip s h1 h2 h3

theorem claim_C4_witness :
    sessionSample.created_at.Valid ∧ sessionSample.updated_at.Valid ∧
    sessionSample.brand.user_images.all UImgEntry.isImg = true ∧
    SessionState.from_dict (PyVal.fields sessionSample.to_dict) =
      some sessionSample :=
  ⟨by decide, by decide, by rfl,
   claim_C4 sessionSample (by decide) (by decide) (by rfl)⟩

/-- Filtering the non-style images out of a mapped image list. -/
theorem filterMap_gen_map (l : List UserUploadedImage) :
    (l.map UImgEntry.img).filterMap (fun e =>
      match e with
      | .img i =>
          if i.usage_intent ≠ "style_reference" then some i
          else Option.none
      | .raw _ => Option.none) =
    l.filter (fun i => decide (i.usage_intent ≠ "style_reference")) := by
  induction l with
  | nil => rfl
  | cons i rest ih =>
      simp only [List.map_cons, List.filterMap_cons, List.filter_cons]
      by_cases h : i.usage_intent = "style_reference"
      · simpa [h] using ih
      · simpa [h] using ih

/-- Filtering the style-tagged images out of a mapped image list. -/
theorem filterMap_style_map (l : List UserUploadedImage) :
    (l.map UImgEntry.img).filterMap (fun e =>
      match e with
      | .img i =>
          if i.usage_intent = "style_reference" then some (UImgEntry.img i)
          else Option.none
      | .raw _ => Option.none) =
    (l.filter (fun i => decide (i.usage_intent = "style_reference"))).map
      UImgEntry.img := by
  induction l with
  | nil => rfl
  | cons i rest ih =>
      simp only [List.map_cons, List.filterMap_cons, List.filter_cons]
      by_cases h : i.usage_intent = "style_reference"
      · simpa [h] using ih
      · simpa [h] using ih

/-- C5: with user images stored as proper objects, the generation
filter keeps exactly the non-`style_reference` images, the style filter
keeps exactly the `style_reference` ones plus the wrapped legacy
reference images, and every user image lands in exactly one of the two
results. -/
theorem claim_C5 (b : BrandContext) (l : List UserUploadedImage)
    (him : b.user_images = l.map UImgEntry.img)
    (hvoc : ∀ i ∈ l, i.usage_intent ∈ USER_IMAGE_INTENTS) :
    b.get_images_for_generation =
      l.filter (fun i => decide (i.usage_intent ≠ "style_reference")) ∧
    b.get_style_reference_images =
      (l.filter (fun i =>
        decide (i.usage_intent = "style_reference"))).map UImgEntry.img ++
        b.reference_images.map
          (fun p => UImgEntry.raw (.dict [("path", p)])) ∧
    ∀ i ∈ l,
      (i ∈ b.get_images_for_generation ∧
        UImgEntry.img i ∉ b.get_style_reference_images) ∨
      (i ∉ b.get_images_for_generation ∧
        UImgEntry.img i ∈ b.get_style_reference_images) := by
  have hgen : b.get_images_for_generation =
      l.filter (fun i => decide (i.usage_intent ≠ "style_reference")) := by
    rw [BrandContext.get_images_for_generation, him, filterMap_gen_map]
  have hsty : b.get_style_reference_images =
      (l.filter (fun i =>
        decide (i.usage_intent = "style_reference"))).map UImgEntry.img ++
        b.reference_images.map
          (fun p => UImgEntry.raw (.dict [("path", p)])) := by
    rw [BrandContext.get_style_reference_images, him, filterMap_style_map]
  refine ⟨hgen, hsty, ?_⟩
  intro i hi
  by_cases h : i.usage_intent = "style_reference"
  · right
    constructor
    · rw [hgen]
      simp [List.mem_filter, h]
    · rw [hsty]
      apply List.mem_append_left
      exact List.mem_map_of_mem _ (List.mem_filter.mpr ⟨hi, by simp [h]⟩)
  · left
    constructor
    · rw [hgen]
      exact List.mem_filter.mpr ⟨hi, by simp [h]⟩
    · rw [hsty]
      intro hmem
      rcases List.mem_append.mp hmem with hm | hm
      · obtain ⟨j, hj, hji⟩ := List.mem_map.mp hm
        have : j = i := by
          injection hji
        subst this
        exact h (of_decide_eq_true (List.mem_filter.mp hj).2)
      · obtain ⟨p, _, hpe⟩ := List.mem_map.mp hm
        cases hpe

theorem claim_C5_witness :
    brandSample.user_images = sixImages.map UImgEntry.img ∧
    (∀ i ∈ sixImages, i.usage_intent ∈ USER_IMAGE_INTENTS) ∧
    brandSample.get_images_for_generation =
      sixImages.filter
        (fun i => decide (i.usage_intent ≠ "style_reference")) :=
  ⟨rfl, by decide, (claim_C5 brandSample sixImages rfl (by decide)).1⟩

/-- C6 (counterexample): `CampaignContext` performs no validation —
assigning `total_weeks := 9` (above the stated ceiling 8) or
`posts_per_week := 6` (above 5) stores the value unchanged, silently
accepting it. -/
theorem claim_C6_counterexample :
    (CampaignContext.set_total_weeks {} 9).total_weeks = 9 ∧
    ¬ ((9 : Int) ≤ 8) ∧
    (CampaignContext.set_posts_per_week {} 6).posts_per_week = 6 ∧
    ¬ ((6 : Int) ≤ 5) :=
  ⟨rfl, by decide, rfl, by decide⟩

/-- C6 (amended): assignment to `total_weeks` or `posts_per_week`
stores the given value verbatim, leaving the other fields untouched —
the ceilings 8 and 5 are policy only, never enforced by the context. -/
theorem claim_C6 (c : CampaignContext) (v : Int) :
    (c.set_total_weeks v).total_weeks = v ∧
    (c.set_posts_per_week v).posts_per_week = v ∧
    (c.set_total_weeks v).posts_per_week = c.posts_per_week ∧
    (c.set_posts_per_week v).total_weeks = c.total_weeks ∧
    (c.set_total_weeks v).current_week = c.current_week ∧
    (c.set_posts_per_week v).current_week = c.current_week :=
  ⟨rfl, rfl, rfl, rfl, rfl, rfl⟩

/-- C7: `is_valid_transition` is true exactly when the target appears
in the declared successor list (a pure function of its two arguments),
and the `dict.get(state, [])` lookup behind `get_valid_next_states`
yields the empty list for any state absent from a table. -/
theorem claim_C7 :
    (∀ f t, StateTransitions.is_valid_transition f t = true ↔
      t ∈ StateTransitions.get_valid_next_states f) ∧
    (∀ (table : List (WorkflowState × List WorkflowState))
        (s : WorkflowState),
      dget table s = Option.none → StateTransitions.getNext table s = []) := by
  constructor
  · intro f t
    simp [StateTransitions.is_valid_transition]
  · intro table s h
    simp [StateTransitions.getNext, h]

theorem claim_C7_witness :
    StateTransitions.is_valid_transition .START .BRAND_SETUP = true ∧
    StateTransitions.getNext [] .ERROR = [] :=
  ⟨(claim_C7.1 .START .BRAND_SETUP).mpr (by decide),
   claim_C7.2 [] .ERROR rfl⟩

/-- C8: `PostContext.reset` is idempotent and leaves every field at its
documented default (`None` everywhere, empty hashtag list). -/
theorem claim_C8 (p : PostContext) :
    (p.reset).reset = p.reset ∧
    p.reset.theme = Option.none ∧
    p.reset.selected_idea = Option.none ∧
    p.reset.visual_brief = Option.none ∧
    p.reset.image_path = Option.none ∧
    p.reset.animation_style = Option.none ∧
    p.reset.video_path = Option.none ∧
    p.reset.caption = Option.none ∧
    p.reset.hashtags = [] :=
  ⟨rfl, rfl, rfl, rfl, rfl, rfl, rfl, rfl, rfl⟩

/-- C9 (counterexample): at `limit = 0` the Python slice `[-0:]` is the
whole list, so a one-entry log yields one entry, not
`min(limit, n) = 0` — the claim fails for that limit value. -/
theorem claim_C9_counterexample :
    (storeOne.get_recent_content 0).length = 1 ∧
    min 0 storeOne.generated_content.length = 0 ∧
    storeOne.get_recent_content 0 = [entrySample 0] :=
  ⟨rfl, rfl, rfl⟩

/-- C9 (amended): for every positive limit, `get_recent_content`
returns exactly the `min(limit, n)` most recent entries of the log,
most-recent-first; at `limit = 0` the slice quirk returns the whole
log reversed instead. -/
theorem claim_C9 (m : MemoryStore) (limit : Nat) (h : 1 ≤ limit) :
    m.get_recent_content limit =
      m.generated_content.reverse.take limit ∧
    (m.get_recent_content limit).length =
      min limit m.generated_content.length := by
  have hne : limit ≠ 0 := by omega
  have h1 : m.get_recent_content limit =
      m.generated_content.reverse.take limit := by
    have hr := List.rtake_eq_reverse_take_reverse
      (l := m.generated_content) (n := limit)
    rw [List.rtake] at hr
    rw [MemoryStore.get_recent_content, pySliceLast, if_neg hne, hr,
      List.reverse_reverse]
  refine ⟨h1, ?_⟩
  rw [h1, List.length_take, List.length_reverse]

theorem claim_C9_witness :
    1 ≤ 2 ∧
    storeThree.get_recent_content 2 =
      storeThree.generated_content.reverse.take 2 :=
  ⟨by decide, (claim_C9 storeThree 2 (by decide)).1⟩

/-- C10: `save_project` on an id that already holds a project with
non-empty history replaces the record wholesale — the stored record
becomes a fresh one whose `content_history` is empty and whose
`created_at` is the current time, losing the prior history. -/
theorem claim_C10 (m : MemoryStore) (pid name : String)
    (bi : List (String × PyVal)) (now : DateTime) (P : Project)
    (hP : MemoryStore.get_project m pid = some P)
    (hne : P.content_history ≠ []) :
    dget ((m.save_project pid name bi now).1).projects pid =
      some { id := pid, name := name, brand_info := bi,
             created_at := now.isoformat,
             updated_at := now.isoformat,
             content_history := ([] : List ContentEntry) } ∧
    ([] : List ContentEntry) ≠ P.content_history := by
  constructor
  · simp [MemoryStore.save_project, dget_dset_self]
  · exact fun hEq => hne hEq.symm

theorem claim_C10_witness :
    MemoryStore.get_project storeProj "p1" = some projSample ∧
    projSample.content_history ≠ [] ∧
    dget ((storeProj.save_project "p1" "Proj2" [] dtSample).1).projects
      "p1" =
      some { id := "p1", name := "Proj2", brand_info := [],
             created_at := dtSample.isoformat,
             updated_at := dtSample.isoformat,
             content_history := ([] : List ContentEntry) } :=
  ⟨rfl, by simp [projSample],
   (claim_C10 storeProj "p1" "Proj2" [] dtSample projSample rfl
     (by simp [projSample])).1⟩

theorem claim_C1_witness :
    (sessionStart.transition .IMAGE_GENERATED dtSample2).workflow_state =
      .IMAGE_GENERATED :=
  (claim_C1 sessionStart .IMAGE_GENERATED dtSample2).1
